import Mathlib

/-
Verification development for the SybilShield repository.

Two components are embedded from the Python source:

1. The token bucket rate limiter of
   src/api/endpoints/optimized_api_server.py (class TokenBucketRateLimiter
   together with the MockRedis backing store it is constructed with).
   Python floats are modelled as rational numbers; the store is modelled
   per key, since consume only ever touches the single key
   "ratelimit:" ++ key and distinct keys are independent.

2. The proof of personhood verifier and the verification manager of
   src/off-chain/identity/verification_system.py
   (classes ProofOfPersonhoodVerifier and VerificationManager).
   Python dicts keyed by strings are modelled as insertion ordered
   association lists; ISO timestamp strings are modelled as rational
   time values; the nondeterministic inputs (random draws, os.urandom,
   time.time) are passed in as explicit parameters.  Where the source
   raises (the captcha challenge generator evaluates np.random without
   numpy being imported), the embedding returns Except values.
-/

namespace SybilShield

/-! Association list helpers modelling Python dict lookup and the
update-or-append semantics of dict assignment (insertion order is
preserved, an existing key is updated in place). -/

def dlookup {α : Type} : List (String × α) → String → Option α
  | [], _ => none
  | (k', v) :: rest, k => if k' = k then some v else dlookup rest k

def dinsert {α : Type} : List (String × α) → String → α → List (String × α)
  | [], k, v => [(k, v)]
  | (k', v') :: rest, k, v =>
      if k' = k then (k, v) :: rest else (k', v') :: dinsert rest k v

theorem dlookup_dinsert_self {α : Type} (l : List (String × α)) (k : String) (v : α) :
    dlookup (dinsert l k v) k = some v := by
  induction l with
  | nil => simp [dinsert, dlookup]
  | cons p rest ih =>
      obtain ⟨k', v'⟩ := p
      by_cases h : k' = k
      · simp [dinsert, dlookup, h]
      · simp [dinsert, dlookup, h, ih]

theorem dlookup_dinsert_ne {α : Type} (l : List (String × α)) (k k' : String) (v : α)
    (h : k' ≠ k) : dlookup (dinsert l k v) k' = dlookup l k' := by
  have h' : ¬ k = k' := fun hk => h hk.symm
  induction l with
  | nil => simp [dinsert, dlookup, h']
  | cons p rest ih =>
      obtain ⟨k0, v0⟩ := p
      by_cases h0 : k0 = k
      · subst h0
        simp [dinsert, dlookup, h']
      · simp [dinsert, dlookup, h0, ih]

/-! Token bucket rate limiter, from
src/api/endpoints/optimized_api_server.py.

The backing store for one bucket key mirrors MockRedis: a stored value
together with an optional expiry time.  MockRedis.get returns the value
only when no expiry is recorded or the expiry is strictly in the
future; MockRedis.set records an expiry only when the ttl argument is
truthy (nonzero), keeping any previous expiry otherwise. -/

structure Bucket where
  tokens : ℚ
  last_refill : ℚ
deriving DecidableEq

structure BucketStore where
  value : Option Bucket
  expiry : Option ℚ
deriving DecidableEq

def redisGet (s : BucketStore) (now : ℚ) : Option Bucket :=
  match s.value, s.expiry with
  | none, _ => none
  | some b, none => some b
  | some b, some e => if e > now then some b else none

def redisSet (s : BucketStore) (b : Bucket) (ex : ℤ) (now : ℚ) : BucketStore :=
  { value := some b,
    expiry := if ex = 0 then s.expiry else some (now + (ex : ℚ)) }

/-- Ttl passed by consume: int(capacity / rate * 2).  Python int()
truncates toward zero; for the nonnegative values produced by positive
rate and capacity this agrees with the floor used here. -/
def bucketTTL (rate capacity : ℚ) : ℤ := ⌊capacity / rate * 2⌋

/-- Outcome of one consume call: the admission verdict, the resulting
store, and how many store reads and writes the call performed. -/
structure ConsumeOut where
  admitted : Bool
  store : BucketStore
  reads : ℕ
  writes : ℕ
deriving DecidableEq

/-- TokenBucketRateLimiter.consume.  One get of the backing store; on an
existing bucket, refill from elapsed time capped at capacity, deny
without any write when the refilled tokens do not cover the request,
otherwise persist the decremented bucket with last_refill = now; on an
absent bucket, deny without any write when the request exceeds
capacity, otherwise persist a fresh bucket. -/
def consume (s : BucketStore) (now : ℚ) (tokens : ℕ) (rate capacity : ℚ) : ConsumeOut :=
  match redisGet s now with
  | some bucket =>
      let elapsed := now - bucket.last_refill
      let new_tokens := min capacity (bucket.tokens + elapsed * rate)
      if new_tokens < (tokens : ℚ) then
        { admitted := false, store := s, reads := 1, writes := 0 }
      else
        { admitted := true,
          store := redisSet s { tokens := new_tokens - (tokens : ℚ), last_refill := now }
                     (bucketTTL rate capacity) now,
          reads := 1, writes := 1 }
  | none =>
      if (tokens : ℚ) > capacity then
        { admitted := false, store := s, reads := 1, writes := 0 }
      else
        { admitted := true,
          store := redisSet s { tokens := capacity - (tokens : ℚ), last_refill := now }
                     (bucketTTL rate capacity) now,
          reads := 1, writes := 1 }

/-- Store state for a key never written: absent value, no expiry. -/
def freshStore : BucketStore := { value := none, expiry := none }

/-- Store state after n consecutive consume calls, all at the same
instant now, starting from the fresh store. -/
def stateAfter (now : ℚ) (cost : ℕ) (rate capacity : ℚ) : ℕ → BucketStore
  | 0 => freshStore
  | n + 1 => (consume (stateAfter now cost rate capacity n) now cost rate capacity).store

/-- Admission verdict of call number n + 1 in that sequence. -/
def admitAt (now : ℚ) (cost : ℕ) (rate capacity : ℚ) (n : ℕ) : Bool :=
  (consume (stateAfter now cost rate capacity n) now cost rate capacity).admitted

/-- Expected store contents after n admitted calls at a single instant:
the bucket holds capacity minus n times the cost, refilled at now, and
the expiry recorded by the last write (absent when the ttl was zero,
since MockRedis.set skips a falsy ttl). -/
def bucketStateAt (now : ℚ) (cost : ℕ) (rate capacity : ℚ) (n : ℕ) : BucketStore :=
  { value := some { tokens := capacity - (n : ℚ) * (cost : ℚ), last_refill := now },
    expiry := if bucketTTL rate capacity = 0 then none
              else some (now + (bucketTTL rate capacity : ℚ)) }

theorem bucketTTL_nonneg (rate capacity : ℚ) (hr : 0 < rate) (hcap : 0 < capacity) :
    0 ≤ bucketTTL rate capacity := by
  unfold bucketTTL
  apply Int.floor_nonneg.mpr
  positivity

theorem redisGet_bucketStateAt (now : ℚ) (cost : ℕ) (rate capacity : ℚ)
    (hr : 0 < rate) (hcap : 0 < capacity) (n : ℕ) :
    redisGet (bucketStateAt now cost rate capacity n) now =
      some { tokens := capacity - (n : ℚ) * (cost : ℚ), last_refill := now } := by
  unfold bucketStateAt redisGet
  by_cases h : bucketTTL rate capacity = 0
  · simp [h]
  · have h2 : now < now + (bucketTTL rate capacity : ℚ) := by
      have h1 : 0 < bucketTTL rate capacity :=
        lt_of_le_of_ne (bucketTTL_nonneg rate capacity hr hcap) (Ne.symm h)
      have h1' : (0:ℚ) < (bucketTTL rate capacity : ℚ) := by exact_mod_cast h1
      linarith
    simp [h, h2]

theorem consume_fresh_admitted (now : ℚ) (cost : ℕ) (rate capacity : ℚ)
    (h : (cost : ℚ) ≤ capacity) :
    consume freshStore now cost rate capacity =
      { admitted := true, store := bucketStateAt now cost rate capacity 1,
        reads := 1, writes := 1 } := by
  simp only [consume, freshStore, redisGet]
  rw [if_neg (not_lt.mpr h)]
  unfold redisSet bucketStateAt
  by_cases ht : bucketTTL rate capacity = 0 <;>
    simp [ht] <;> push_cast <;> ring

theorem consume_fresh_deny (now : ℚ) (cost : ℕ) (rate capacity : ℚ)
    (h : capacity < (cost : ℚ)) :
    consume freshStore now cost rate capacity =
      { admitted := false, store := freshStore, reads := 1, writes := 0 } := by
  simp only [consume, freshStore, redisGet]
  rw [if_pos h]

theorem consume_bucketStateAt_admitted (now : ℚ) (cost : ℕ) (rate capacity : ℚ)
    (hr : 0 < rate) (hcap : 0 < capacity) (n : ℕ)
    (h : ((n : ℚ) + 1) * (cost : ℚ) ≤ capacity) :
    consume (bucketStateAt now cost rate capacity n) now cost rate capacity =
      { admitted := true, store := bucketStateAt now cost rate capacity (n + 1),
        reads := 1, writes := 1 } := by
  have hget := redisGet_bucketStateAt now cost rate capacity hr hcap n
  have hnn : (0:ℚ) ≤ (n : ℚ) * (cost : ℚ) := by positivity
  simp only [consume, hget, sub_self, zero_mul, add_zero]
  rw [min_eq_right (by linarith)]
  rw [if_neg (by push_cast at h ⊢; nlinarith)]
  unfold redisSet bucketStateAt
  by_cases ht : bucketTTL rate capacity = 0 <;>
    simp [ht] <;> push_cast <;> ring

theorem consume_bucketStateAt_deny (now : ℚ) (cost : ℕ) (rate capacity : ℚ)
    (hr : 0 < rate) (hcap : 0 < capacity) (n : ℕ)
    (h : capacity < ((n : ℚ) + 1) * (cost : ℚ)) :
    consume (bucketStateAt now cost rate capacity n) now cost rate capacity =
      { admitted := false, store := bucketStateAt now cost rate capacity n,
        reads := 1, writes := 0 } := by
  have hget := redisGet_bucketStateAt now cost rate capacity hr hcap n
  have hnn : (0:ℚ) ≤ (n : ℚ) * (cost : ℚ) := by positivity
  simp only [consume, hget, sub_self, zero_mul, add_zero]
  rw [min_eq_right (by linarith)]
  rw [if_pos (by nlinarith)]

theorem stateAfter_eq_bucketStateAt (now : ℚ) (cost : ℕ) (rate capacity : ℚ)
    (hr : 0 < rate) (hcap : 0 < capacity) :
    ∀ n : ℕ, 0 < n → (n : ℚ) * (cost : ℚ) ≤ capacity →
      stateAfter now cost rate capacity n = bucketStateAt now cost rate capacity n := by
  intro n
  induction n with
  | zero => intro h; exact absurd h (by omega)
  | succ m ih =>
      intro _ hle
      have hcnn : (0:ℚ) ≤ (cost : ℚ) := by positivity
      cases Nat.eq_zero_or_pos m with
      | inl h0 =>
          subst h0
          rw [stateAfter]
          rw [show stateAfter now cost rate capacity 0 = freshStore from rfl]
          rw [consume_fresh_admitted now cost rate capacity (by push_cast at hle; linarith)]
      | inr hpos =>
          have hm : (m : ℚ) * (cost : ℚ) ≤ capacity := by
            push_cast at hle ⊢
            nlinarith
          rw [stateAfter, ih hpos hm]
          rw [consume_bucketStateAt_admitted now cost rate capacity hr hcap m
            (by push_cast at hle ⊢; linarith)]

/-- C4: for all capacity > 0, rate > 0 and cost > 0, a fresh (absent)
bucket admits exactly floor(capacity / cost) consecutive consume(cost)
calls when no time elapses between them, and denies the next such
call. -/
theorem c4_fresh_bucket_admits_floor (now : ℚ) (cost : ℕ) (rate capacity : ℚ)
    (hc : 0 < cost) (hr : 0 < rate) (hcap : 0 < capacity) :
    (∀ i : ℕ, i < ⌊capacity / (cost : ℚ)⌋₊ → admitAt now cost rate capacity i = true) ∧
    admitAt now cost rate capacity ⌊capacity / (cost : ℚ)⌋₊ = false := by
  have hcq : (0:ℚ) < (cost : ℚ) := by exact_mod_cast hc
  have hdiv : (0:ℚ) ≤ capacity / (cost : ℚ) := by positivity
  constructor
  · intro i hi
    have hi1 : i + 1 ≤ ⌊capacity / (cost : ℚ)⌋₊ := hi
    have hle : ((i : ℚ) + 1) * (cost : ℚ) ≤ capacity := by
      have h2 := (Nat.le_floor_iff hdiv).mp hi1
      push_cast at h2
      rw [← le_div_iff hcq]
      linarith
    cases Nat.eq_zero_or_pos i with
    | inl h0 =>
        subst h0
        unfold admitAt
        rw [show stateAfter now cost rate capacity 0 = freshStore from rfl]
        rw [consume_fresh_admitted now cost rate capacity (by push_cast at hle; linarith)]
    | inr hpos =>
        unfold admitAt
        rw [stateAfter_eq_bucketStateAt now cost rate capacity hr hcap i hpos
          (by push_cast at hle ⊢; nlinarith)]
        rw [consume_bucketStateAt_admitted now cost rate capacity hr hcap i hle]
  · have hlt : capacity < ((⌊capacity / (cost : ℚ)⌋₊ : ℚ) + 1) * (cost : ℚ) := by
      have h2 := Nat.lt_floor_add_one (capacity / (cost : ℚ))
      rw [div_lt_iff hcq] at h2
      push_cast at h2 ⊢
      linarith
    cases Nat.eq_zero_or_pos ⌊capacity / (cost : ℚ)⌋₊ with
    | inl h0 =>
        unfold admitAt
        rw [h0]
        rw [show stateAfter now cost rate capacity 0 = freshStore from rfl]
        rw [consume_fresh_deny now cost rate capacity (by rw [h0] at hlt; push_cast at hlt; linarith)]
    | inr hpos =>
        unfold admitAt
        rw [stateAfter_eq_bucketStateAt now cost rate capacity hr hcap _ hpos
          (by rw [← le_div_iff hcq]; exact (Nat.le_floor_iff hdiv).mp le_rfl)]
        rw [consume_bucketStateAt_deny now cost rate capacity hr hcap _ hlt]

/-- Witness for C4 at capacity = 10, rate = 1, cost = 3: the floor is 3,
so three calls are admitted and the fourth is denied. -/
theorem c4_fresh_bucket_admits_floor_witness :
    (0 < 3 ∧ (0:ℚ) < 1 ∧ (0:ℚ) < 10) ∧
    ((∀ i : ℕ, i < ⌊(10:ℚ) / ((3:ℕ) : ℚ)⌋₊ → admitAt 0 3 1 10 i = true) ∧
      admitAt 0 3 1 10 ⌊(10:ℚ) / ((3:ℕ) : ℚ)⌋₊ = false) :=
  ⟨⟨by norm_num, by norm_num, by norm_num⟩,
    c4_fresh_bucket_admits_floor 0 3 1 10 (by norm_num) (by norm_num) (by norm_num)⟩

/-- Store holding a bucket with zero tokens last refilled at time 0,
used to exercise the denial path of consume. -/
def c2store : BucketStore := { value := some { tokens := 0, last_refill := 0 }, expiry := none }

/-- C2 is false on the code: a denied consume call writes nothing back.
At time 1 the bucket of c2store has refilled to 1 token, the call asks
for 5, so it is denied; the store is returned exactly as it was
(last_refill still 0, not the claimed now = 1) and the write count is
0, not the claimed 1. -/
theorem c2_counterexample :
    (consume c2store 1 5 1 5).admitted = false ∧
    (consume c2store 1 5 1 5).store = c2store ∧
    (consume c2store 1 5 1 5).writes = 0 ∧
    c2store.value = some { tokens := 0, last_refill := 0 } ∧
    (0:ℚ) ≠ 1 := by
  refine ⟨?_, ?_, ?_, rfl, by norm_num⟩ <;> norm_num [consume, redisGet, c2store]

/-- C2 amended: every consume call performs exactly one read of the
backing store; a denied call leaves the store entirely unchanged (in
particular last_refill is not updated) and performs no write, while an
admitted call performs exactly one write. -/
theorem c2_consume_store_effects (s : BucketStore) (now : ℚ) (cost : ℕ)
    (rate capacity : ℚ) :
    (consume s now cost rate capacity).reads = 1 ∧
    ((consume s now cost rate capacity).admitted = false →
      (consume s now cost rate capacity).store = s ∧
      (consume s now cost rate capacity).writes = 0) ∧
    ((consume s now cost rate capacity).admitted = true →
      (consume s now cost rate capacity).writes = 1) := by
  unfold consume
  cases hget : redisGet s now with
  | some b => dsimp only; split <;> simp
  | none => dsimp only; split <;> simp

/-- Witness for the amended C2 at the denying input of the
counterexample store. -/
theorem c2_consume_store_effects_witness :
    (consume c2store 1 5 1 5).reads = 1 ∧
    ((consume c2store 1 5 1 5).admitted = false →
      (consume c2store 1 5 1 5).store = c2store ∧
      (consume c2store 1 5 1 5).writes = 0) ∧
    ((consume c2store 1 5 1 5).admitted = true →
      (consume c2store 1 5 1 5).writes = 1) :=
  c2_consume_store_effects c2store 1 5 1 5

/-- C6: with rate > 0, capacity > 0 and a nonnegative cost (cost is a
natural number, as in the source where the tokens argument is an int),
consume preserves the bucket invariant: whatever bucket value is in the
store afterwards has tokens at most capacity provided the prior stored
value did, and after a successful (admitted) consume the freshly
persisted tokens value is also nonnegative. -/
theorem c6_consume_invariant (s : BucketStore) (now : ℚ) (cost : ℕ)
    (rate capacity : ℚ) (hr : 0 < rate) (hcap : 0 < capacity)
    (hinv : ∀ b, s.value = some b → b.tokens ≤ capacity) :
    (∀ b, (consume s now cost rate capacity).store.value = some b →
      b.tokens ≤ capacity) ∧
    ((consume s now cost rate capacity).admitted = true →
      ∀ b, (consume s now cost rate capacity).store.value = some b →
        0 ≤ b.tokens) := by
  have hcnn : (0:ℚ) ≤ (cost : ℚ) := by positivity
  unfold consume
  cases hget : redisGet s now with
  | some b0 =>
      dsimp only
      split
      · exact ⟨hinv, by simp⟩
      · rename_i hnot
        rw [not_lt] at hnot
        constructor
        · intro b hb
          simp only [redisSet] at hb
          obtain rfl : ({ tokens := min capacity (b0.tokens + (now - b0.last_refill) * rate) - (cost : ℚ), last_refill := now } : Bucket) = b := by
            exact Option.some_injective _ hb
          have : min capacity (b0.tokens + (now - b0.last_refill) * rate) ≤ capacity :=
            min_le_left _ _
          simp only
          linarith
        · intro _ b hb
          simp only [redisSet] at hb
          obtain rfl : ({ tokens := min capacity (b0.tokens + (now - b0.last_refill) * rate) - (cost : ℚ), last_refill := now } : Bucket) = b := by
            exact Option.some_injective _ hb
          simp only
          linarith
  | none =>
      dsimp only
      split
      · exact ⟨hinv, by simp⟩
      · rename_i hnot
        rw [not_lt] at hnot
        constructor
        · intro b hb
          simp only [redisSet] at hb
          obtain rfl : ({ tokens := capacity - (cost : ℚ), last_refill := now } : Bucket) = b :=
            Option.some_injective _ hb
          simp only
          linarith
        · intro _ b hb
          simp only [redisSet] at hb
          obtain rfl : ({ tokens := capacity - (cost : ℚ), last_refill := now } : Bucket) = b :=
            Option.some_injective _ hb
          simp only
          linarith

/-- Witness for C6 at a concrete admitted consume: fresh store, five
tokens of capacity, cost three. -/
theorem c6_consume_invariant_witness :
    ((0:ℚ) < 1 ∧ (0:ℚ) < 5 ∧ (∀ b, freshStore.value = some b → b.tokens ≤ 5)) ∧
    ((∀ b, (consume freshStore 0 3 1 5).store.value = some b → b.tokens ≤ 5) ∧
      ((consume freshStore 0 3 1 5).admitted = true →
        ∀ b, (consume freshStore 0 3 1 5).store.value = some b → 0 ≤ b.tokens)) :=
  ⟨⟨by norm_num, by norm_num, by simp [freshStore]⟩,
    c6_consume_invariant freshStore 0 3 1 5 (by norm_num) (by norm_num)
      (by simp [freshStore])⟩

/-! Proof of personhood verifier and verification manager, from
src/off-chain/identity/verification_system.py.  Proof payloads are
Python values of any type; the claims only need strings, integers and
None, so those constructors are modelled. -/

inductive PyVal where
  | pstr (s : String)
  | pint (n : ℤ)
  | pnone
deriving DecidableEq

/-- Arithmetic operator drawn by the captcha challenge generator. -/
inductive CaptchaOp where
  | add
  | sub
  | mul
deriving DecidableEq

def opText : CaptchaOp → String
  | .add => "+"
  | .sub => "-"
  | .mul => "*"

def opEval (a b : ℤ) : CaptchaOp → ℤ
  | .add => a + b
  | .sub => a - b
  | .mul => a * b

/-- Challenge dict.  The captcha branch fills ctype, question and
answer; the video and generic branches fill ctype and session_id (the
keys a branch does not produce are modelled as empty strings). -/
structure Challenge where
  ctype : String
  question : String
  answer : String
  session_id : String
deriving DecidableEq

/-- Challenge values of ProofOfPersonhoodVerifier._generate_challenge,
with the draws passed in as parameters a, b, op and sid.  Caution: the
captcha branch of the source never actually produces these values,
because verification_system.py uses np.random at lines 511-513 without
ever importing numpy, so evaluating that branch raises NameError
before any draw happens (generateChallengeExn below captures that);
this definition gives the values the branch is written to compute and
describes the captcha sessions that the completion and status claims
quantify over. -/
def generateChallenge (method : String) (a b : ℤ) (op : CaptchaOp) (sid : String) : Challenge :=
  if method = "captcha" then
    { ctype := "text_captcha",
      question := "What is " ++ toString a ++ " " ++ opText op ++ " " ++ toString b ++ "?",
      answer := toString (opEval a b op),
      session_id := "" }
  else if method = "video" then
    { ctype := "video", question := "", answer := "", session_id := sid }
  else
    { ctype := "generic", question := "", answer := "", session_id := sid }

/-- ProofOfPersonhoodVerifier._get_instructions. -/
def getInstructions (method : String) : String :=
  if method = "captcha" then
    "Solve the CAPTCHA challenge and submit your answer"
  else if method = "video" then
    "1. Allow camera access when prompted\n2. Follow the on-screen instructions\n3. Complete the facial verification process"
  else
    "Follow the verification process as instructed"

/-- Session dict stored in ProofOfPersonhoodVerifier.verification_sessions.
Timestamps are rational time values standing in for the ISO strings. -/
structure PopSession where
  address : String
  challenge : Challenge
  status : String
  timestamp : ℚ
  method : String
  attempts : ℕ
  max_attempts : ℕ
  verified_at : Option ℚ
deriving DecidableEq

/-- ProofOfPersonhoodVerifier state: its method tag and its sessions
dict. -/
structure PopVerifier where
  method : String
  sessions : List (String × PopSession)
deriving DecidableEq

/-- IdentityVerifier.generate_verification_id: method tag, address,
timestamp and random hex joined by underscores.  The time and urandom
draws are passed in as ts and rand. -/
def generate_verification_id (vtype address : String) (ts : ℤ) (rand : String) : String :=
  vtype ++ "_" ++ address ++ "_" ++ toString ts ++ "_" ++ rand

/-- Result dict of ProofOfPersonhoodVerifier.start_verification. -/
structure StartResult where
  verification_id : String
  verification_type : String
  method : String
  address : String
  challenge : Challenge
  instructions : String
  status : String
deriving DecidableEq

/-- ProofOfPersonhoodVerifier.start_verification on the value level:
generate the id and the challenge, store a fresh pending session with
zero attempts and max_attempts three, and return the details.  On the
captcha method the source raises NameError inside _generate_challenge
instead (numpy is never imported), so this value-level form only
describes the non-raising methods and the intended captcha values;
startVerificationExn below is the faithful embedding of the raising
control flow. -/
def startVerification (v : PopVerifier) (address : String) (ts : ℤ) (rand : String)
    (a b : ℤ) (op : CaptchaOp) (sid : String) (now : ℚ) : PopVerifier × StartResult :=
  let vid := generate_verification_id ("pop_" ++ v.method) address ts rand
  let ch := generateChallenge v.method a b op sid
  let sess : PopSession :=
    { address := address, challenge := ch, status := "pending", timestamp := now,
      method := v.method, attempts := 0, max_attempts := 3, verified_at := none }
  ({ v with sessions := dinsert v.sessions vid sess },
   { verification_id := vid, verification_type := "pop_" ++ v.method, method := v.method,
     address := address, challenge := ch, instructions := getInstructions v.method,
     status := "pending" })

/-- Result dict of the check and complete operations.  Only the keys
the claims inspect are modelled; attempts and max_attempts are present
exactly in the branches of the source that emit them. -/
structure VResult where
  verification_id : String
  status : String
  error : Option String
  attempts : Option ℕ
  max_attempts : Option ℕ
deriving DecidableEq

/-- ProofOfPersonhoodVerifier.check_verification_status: a pure read
returning not_found for an unknown id and the stored session status
otherwise; it never mutates the sessions dict and never raises. -/
def popCheck (v : PopVerifier) (vid : String) : VResult :=
  match dlookup v.sessions vid with
  | none =>
      { verification_id := vid, status := "not_found",
        error := some "Verification ID not found", attempts := none, max_attempts := none }
  | some s =>
      { verification_id := vid, status := s.status, error := none,
        attempts := some s.attempts, max_attempts := some s.max_attempts }

/-- Proof evaluation step of complete_verification: for the captcha
method the proof must be a string equal to the stored answer (any
non-string value compares unequal, as isinstance filters it out); the
video and generic methods always succeed in the prototype. -/
def proofOk (method : String) (proof : PyVal) (answer : String) : Bool :=
  if method = "captcha" then
    match proof with
    | PyVal.pstr p => p = answer
    | _ => false
  else true

/-- ProofOfPersonhoodVerifier.complete_verification: unknown ids give a
failed result with an error; otherwise attempts is incremented first,
a count strictly above max_attempts forces failed regardless of the
proof, then the proof is evaluated (for captcha a string equal to the
stored answer, for every other method unconditional success), success
records verified with a verified_at stamp, and a miss yields failed
once the incremented count has reached max_attempts and pending with
the session left retriable otherwise.  Total: no branch raises. -/
def popComplete (v : PopVerifier) (vid : String) (proof : PyVal) (now : ℚ) :
    PopVerifier × VResult :=
  match dlookup v.sessions vid with
  | none =>
      (v, { verification_id := vid, status := "failed",
            error := some "Verification ID not found", attempts := none, max_attempts := none })
  | some s0 =>
      let s1 := { s0 with attempts := s0.attempts + 1 }
      let sFailed := { s1 with status := "failed" }
      if s1.attempts > s1.max_attempts then
        ({ v with sessions := dinsert v.sessions vid sFailed },
         { verification_id := vid, status := "failed",
           error := some "Maximum attempts exceeded", attempts := none, max_attempts := none })
      else
        let ok : Bool := proofOk v.method proof s1.challenge.answer
        if ok then
          let sVerified := { s1 with status := "verified", verified_at := some now }
          ({ v with sessions := dinsert v.sessions vid sVerified },
           { verification_id := vid, status := "verified", error := none,
             attempts := none, max_attempts := none })
        else if s1.attempts ≥ s1.max_attempts then
          ({ v with sessions := dinsert v.sessions vid sFailed },
           { verification_id := vid, status := "failed",
             error := some "Maximum attempts exceeded",
             attempts := some s1.attempts, max_attempts := some s1.max_attempts })
        else
          ({ v with sessions := dinsert v.sessions vid s1 },
           { verification_id := vid, status := "pending",
             error := some "Verification failed, please try again",
             attempts := some s1.attempts, max_attempts := some s1.max_attempts })

/-- Record dict stored in VerificationManager.verification_records.
The manager code writes verification_type, address, status and
started_at at start and adds verified_at and proof_hash on a verified
completion.  Records are plain Python dicts, so further keys can be
present; expires_at models such a key (other parts of the repository
put one into their verification dicts): the manager never reads or
writes it, which the expiration claims are about. -/
structure ManagerRecord where
  verification_type : String
  address : String
  status : String
  started_at : ℚ
  verified_at : Option ℚ
  proof_hash : Option String
  expires_at : Option ℚ
deriving DecidableEq

/-- VerificationManager state.  The registry of verifiers is modelled
at the proof of personhood variant, the one the claims concern; the
records dict spans all ids. -/
structure VerificationManager where
  verifiers : List (String × PopVerifier)
  records : List (String × ManagerRecord)
deriving DecidableEq

/-- Python str() of a proof value, as hashed by the manager. -/
def pyStr : PyVal → String
  | .pstr s => s
  | .pint n => toString n
  | .pnone => "None"

/-- SHA-256 of str(proof), abstracted as an opaque tagging of the
input; no claim inspects the digest itself. -/
def proofHash (p : PyVal) : String := "sha256:" ++ pyStr p

/-- VerificationManager.start_verification for a registered proof of
personhood verifier: delegate, then store a manager record that always
starts pending.  An unregistered type returns an error dict and changes
nothing, modelled as none. -/
def mgrStart (m : VerificationManager) (vtype address : String) (ts : ℤ) (rand : String)
    (a b : ℤ) (op : CaptchaOp) (sid : String) (now : ℚ) :
    VerificationManager × Option StartResult :=
  match dlookup m.verifiers vtype with
  | none => (m, none)
  | some ver =>
      let out := startVerification ver address ts rand a b op sid now
      let rec0 : ManagerRecord :=
        { verification_type := vtype, address := address, status := "pending",
          started_at := now, verified_at := none, proof_hash := none, expires_at := none }
      ({ verifiers := dinsert m.verifiers vtype out.1,
         records := dinsert m.records out.2.verification_id rec0 },
       some out.2)

/-- VerificationManager.check_verification_status: unknown ids return a
not_found result without touching any state; otherwise the owning
verifier is consulted and its returned status is mirrored into the
stored record.  No branch raises and no branch consults a clock. -/
def mgrCheck (m : VerificationManager) (vid : String) : VerificationManager × VResult :=
  match dlookup m.records vid with
  | none =>
      (m, { verification_id := vid, status := "not_found",
            error := some "Verification ID not found", attempts := none, max_attempts := none })
  | some rec0 =>
      match dlookup m.verifiers rec0.verification_type with
      | none =>
          (m, { verification_id := vid, status := "error",
                error := some "Verification method not available",
                attempts := none, max_attempts := none })
      | some ver =>
          let res := popCheck ver vid
          ({ m with records := dinsert m.records vid { rec0 with status := res.status } },
           res)

/-- VerificationManager.complete_verification: unknown ids return a
not_found result without touching any state; otherwise the owning
verifier completes and its returned status is mirrored into the stored
record, with verified_at and proof_hash added when it verified. -/
def mgrComplete (m : VerificationManager) (vid : String) (proof : PyVal) (now : ℚ) :
    VerificationManager × VResult :=
  match dlookup m.records vid with
  | none =>
      (m, { verification_id := vid, status := "not_found",
            error := some "Verification ID not found", attempts := none, max_attempts := none })
  | some rec0 =>
      match dlookup m.verifiers rec0.verification_type with
      | none =>
          (m, { verification_id := vid, status := "error",
                error := some "Verification method not available",
                attempts := none, max_attempts := none })
      | some ver =>
          let out := popComplete ver vid proof now
          let rec1 := { rec0 with status := out.2.status }
          let rec2 :=
            if out.2.status = "verified" then
              { rec1 with verified_at := some now, proof_hash := some (proofHash proof) }
            else rec1
          ({ verifiers := dinsert m.verifiers rec0.verification_type out.1,
             records := dinsert m.records vid rec2 },
           out.2)

/-- Entry of the list returned by get_verification_history. -/
structure HistEntry where
  verification_id : String
  verification_type : String
  status : String
  started_at : ℚ
  verified_at : Option ℚ
deriving DecidableEq

def histEntry (vid : String) (r : ManagerRecord) : HistEntry :=
  { verification_id := vid, verification_type := r.verification_type,
    status := r.status, started_at := r.started_at, verified_at := r.verified_at }

/-- Loop body of VerificationManager.get_verification_history: walk the
records dict in insertion order, appending an entry for every record
whose address matches. -/
def historyLoop (address : String) : List (String × ManagerRecord) → List HistEntry
  | [] => []
  | (vid, r) :: rest =>
      if r.address = address then histEntry vid r :: historyLoop address rest
      else historyLoop address rest

/-- VerificationManager.get_verification_history: a pure read over the
records dict. -/
def getVerificationHistory (m : VerificationManager) (address : String) : List HistEntry :=
  historyLoop address m.records

/-! Branch lemmas for popComplete, one per control path of
complete_verification on a known id. -/

theorem popComplete_forced (v : PopVerifier) (vid : String) (proof : PyVal) (now : ℚ)
    (s : PopSession) (hs : dlookup v.sessions vid = some s)
    (h : s.max_attempts < s.attempts + 1) :
    popComplete v vid proof now =
      (⟨v.method, dinsert v.sessions vid ({ s with attempts := s.attempts + 1, status := "failed" })⟩,
       { verification_id := vid, status := "failed",
         error := some "Maximum attempts exceeded", attempts := none, max_attempts := none }) := by
  simp only [popComplete, hs]
  rw [if_pos h]

theorem popComplete_success (v : PopVerifier) (vid : String) (proof : PyVal) (now : ℚ)
    (s : PopSession) (hs : dlookup v.sessions vid = some s)
    (h : s.attempts + 1 ≤ s.max_attempts)
    (hok : proofOk v.method proof s.challenge.answer = true) :
    popComplete v vid proof now =
      (⟨v.method, dinsert v.sessions vid ({ s with attempts := s.attempts + 1, status := "verified", verified_at := some now })⟩,
       { verification_id := vid, status := "verified", error := none,
         attempts := none, max_attempts := none }) := by
  simp only [popComplete, hs]
  rw [if_neg (by omega)]
  simp only [hok, if_true]

theorem popComplete_miss_final (v : PopVerifier) (vid : String) (proof : PyVal) (now : ℚ)
    (s : PopSession) (hs : dlookup v.sessions vid = some s)
    (h : s.attempts + 1 ≤ s.max_attempts)
    (hok : proofOk v.method proof s.challenge.answer = false)
    (hfin : s.max_attempts ≤ s.attempts + 1) :
    popComplete v vid proof now =
      (⟨v.method, dinsert v.sessions vid ({ s with attempts := s.attempts + 1, status := "failed" })⟩,
       { verification_id := vid, status := "failed",
         error := some "Maximum attempts exceeded",
         attempts := some (s.attempts + 1), max_attempts := some s.max_attempts }) := by
  simp only [popComplete, hs]
  rw [if_neg (by omega)]
  simp only [hok, Bool.false_eq_true, if_false]
  rw [if_pos hfin]

theorem popComplete_miss_retry (v : PopVerifier) (vid : String) (proof : PyVal) (now : ℚ)
    (s : PopSession) (hs : dlookup v.sessions vid = some s)
    (hok : proofOk v.method proof s.challenge.answer = false)
    (hlt : s.attempts + 1 < s.max_attempts) :
    popComplete v vid proof now =
      (⟨v.method, dinsert v.sessions vid ({ s with attempts := s.attempts + 1 })⟩,
       { verification_id := vid, status := "pending",
         error := some "Verification failed, please try again",
         attempts := some (s.attempts + 1), max_attempts := some s.max_attempts }) := by
  simp only [popComplete, hs]
  rw [if_neg (by omega)]
  simp only [hok, Bool.false_eq_true, if_false]
  rw [if_neg (by omega)]

theorem proofOk_captcha_iff (proof : PyVal) (answer : String) :
    proofOk "captcha" proof answer = true ↔ proof = PyVal.pstr answer := by
  unfold proofOk
  cases proof <;> simp

/-- Python exception, as raised by evaluating an undefined name. -/
inductive PyExn where
  | nameError (name : String)
deriving DecidableEq

/-- Faithful control flow of _generate_challenge: the captcha branch
evaluates np.random.randint first, and since verification_system.py
never imports numpy (its imports are os, logging, requests, json,
hashlib, time, base64, typing and datetime only), that name lookup
raises NameError before any draw can happen; the video and generic
branches do not touch np and succeed with the values of
generateChallenge. -/
def generateChallengeExn (method : String) (sid : String) : Except PyExn Challenge :=
  if method = "captcha" then
    Except.error (PyExn.nameError "np")
  else
    Except.ok (generateChallenge method 0 0 CaptchaOp.add sid)

/-- Faithful control flow of start_verification: the exception from
_generate_challenge propagates out of start_verification, so on the
captcha method nothing is stored and no result dict is built. -/
def startVerificationExn (v : PopVerifier) (address : String) (ts : ℤ) (rand : String)
    (sid : String) (now : ℚ) : Except PyExn (PopVerifier × StartResult) :=
  let vid := generate_verification_id ("pop_" ++ v.method) address ts rand
  match generateChallengeExn v.method sid with
  | Except.error e => Except.error e
  | Except.ok ch =>
      let sess : PopSession :=
        { address := address, challenge := ch, status := "pending", timestamp := now,
          method := v.method, attempts := 0, max_attempts := 3, verified_at := none }
      Except.ok ({ v with sessions := dinsert v.sessions vid sess },
        { verification_id := vid, verification_type := "pop_" ++ v.method,
          method := v.method, address := address, challenge := ch,
          instructions := getInstructions v.method, status := "pending" })

/-- C3 names a code bug: for every address, starting a verification on
the default captcha method raises NameError (the module evaluates
np.random without ever importing numpy) before the session is stored,
instead of returning the claimed pending result with an arithmetic
challenge.  This theorem evaluates the code at the failing inputs: the
call always propagates the NameError on the name np. -/
theorem c3_start_captcha_raises_name_error (v : PopVerifier) (address : String)
    (ts : ℤ) (rand : String) (sid : String) (now : ℚ)
    (hm : v.method = "captcha") :
    startVerificationExn v address ts rand sid now =
      Except.error (PyExn.nameError "np") := by
  simp [startVerificationExn, generateChallengeExn, hm]

/-- Witness for C3 at a concrete captcha verifier and address: the
start call raises. -/
theorem c3_start_captcha_raises_name_error_witness :
    (PopVerifier.mk "captcha" []).method = "captcha" ∧
    startVerificationExn (PopVerifier.mk "captcha" []) "0xabc" 7 "r0" "" 0 =
      Except.error (PyExn.nameError "np") :=
  ⟨rfl, c3_start_captcha_raises_name_error (PopVerifier.mk "captcha" []) "0xabc" 7 "r0" "" 0 rfl⟩

/-- Concrete captcha fixtures shared by several concrete runs below: a
session whose stored answer is the string 5, zero attempts so far,
three attempts allowed. -/
def capChallenge : Challenge := generateChallenge "captcha" 2 3 CaptchaOp.add ""

def capSession : PopSession :=
  { address := "0xaddr", challenge := capChallenge, status := "pending", timestamp := 0,
    method := "captcha", attempts := 0, max_attempts := 3, verified_at := none }

def capVerifier : PopVerifier := { method := "captcha", sessions := [("vid1", capSession)] }

/-- C1 is false at its attempt 3 clause: after two wrong completions
(both pending), a third completion with the correct proof returns
verified, not failed, because the forced failure guard only fires when
the incremented attempts exceed max_attempts (that is, from attempt 4
on). -/
theorem c1_counterexample :
    (popComplete capVerifier "vid1" (PyVal.pstr "9") 1).2.status = "pending" ∧
    (popComplete (popComplete capVerifier "vid1" (PyVal.pstr "9") 1).1 "vid1"
      (PyVal.pstr "9") 2).2.status = "pending" ∧
    (popComplete (popComplete (popComplete capVerifier "vid1" (PyVal.pstr "9") 1).1 "vid1"
      (PyVal.pstr "9") 2).1 "vid1" (PyVal.pstr "5") 3).2.status = "verified" ∧
    ("verified" : String) ≠ "failed" :=
  ⟨rfl, rfl, rfl, by simp⟩

/-- A proof the captcha comparison accepts: the string equal to the
stored answer. -/
def correctProof (p : PyVal) (s : PopSession) : Prop := p = PyVal.pstr s.challenge.answer

/-- A proof the captcha comparison rejects: any non-string value or any
string other than the stored answer. -/
def wrongProof (p : PyVal) (s : PopSession) : Prop := p ≠ PyVal.pstr s.challenge.answer

/-- C1 amended: on a known captcha id with max_attempts = 3, every
completion increments attempts before evaluating the proof; a wrong
proof yields pending on attempts 1 and 2 and failed on attempt 3; a
correct proof on any of attempts 1 to 3 yields verified (so attempt 3
is not failed for every proof); and the status is forced to failed
regardless of the proof exactly when the incremented attempts exceed
max_attempts, that is from attempt 4 on. -/
theorem c1_pop_attempt_accounting (v : PopVerifier) (vid : String) (proof : PyVal)
    (now : ℚ) (s : PopSession) (hm : v.method = "captcha")
    (hs : dlookup v.sessions vid = some s) (hmax : s.max_attempts = 3) :
    (∀ s2, dlookup (popComplete v vid proof now).1.sessions vid = some s2 →
      s2.attempts = s.attempts + 1) ∧
    (wrongProof proof s → s.attempts = 0 →
      (popComplete v vid proof now).2.status = "pending") ∧
    (wrongProof proof s → s.attempts = 1 →
      (popComplete v vid proof now).2.status = "pending") ∧
    (wrongProof proof s → s.attempts = 2 →
      (popComplete v vid proof now).2.status = "failed") ∧
    (correctProof proof s → s.attempts ≤ 2 →
      (popComplete v vid proof now).2.status = "verified") ∧
    (3 ≤ s.attempts → (popComplete v vid proof now).2.status = "failed") := by
  have hokiff : proofOk v.method proof s.challenge.answer = true ↔ correctProof proof s := by
    rw [hm]; exact proofOk_captcha_iff proof s.challenge.answer
  refine ⟨?_, ?_, ?_, ?_, ?_, ?_⟩
  · intro s2 hs2
    by_cases hforce : s.max_attempts < s.attempts + 1
    · rw [popComplete_forced v vid proof now s hs hforce] at hs2
      simp only [dlookup_dinsert_self] at hs2
      cases hs2
      rfl
    · by_cases hok : proofOk v.method proof s.challenge.answer = true
      · rw [popComplete_success v vid proof now s hs (by omega) hok] at hs2
        simp only [dlookup_dinsert_self] at hs2
        cases hs2
        rfl
      · have hok' : proofOk v.method proof s.challenge.answer = false := by
          cases hb : proofOk v.method proof s.challenge.answer
          · rfl
          · exact absurd hb hok
        by_cases hfin : s.max_attempts ≤ s.attempts + 1
        · rw [popComplete_miss_final v vid proof now s hs (by omega) hok' hfin] at hs2
          simp only [dlookup_dinsert_self] at hs2
          cases hs2
          rfl
        · rw [popComplete_miss_retry v vid proof now s hs hok' (by omega)] at hs2
          simp only [dlookup_dinsert_self] at hs2
          cases hs2
          rfl
  · intro hw h0
    have hok' : proofOk v.method proof s.challenge.answer = false := by
      cases hb : proofOk v.method proof s.challenge.answer
      · rfl
      · exact absurd (hokiff.mp hb) hw
    rw [popComplete_miss_retry v vid proof now s hs hok' (by omega)]
  · intro hw h1
    have hok' : proofOk v.method proof s.challenge.answer = false := by
      cases hb : proofOk v.method proof s.challenge.answer
      · rfl
      · exact absurd (hokiff.mp hb) hw
    rw [popComplete_miss_retry v vid proof now s hs hok' (by omega)]
  · intro hw h2
    have hok' : proofOk v.method proof s.challenge.answer = false := by
      cases hb : proofOk v.method proof s.challenge.answer
      · rfl
      · exact absurd (hokiff.mp hb) hw
    rw [popComplete_miss_final v vid proof now s hs (by omega) hok' (by omega)]
  · intro hc hle
    rw [popComplete_success v vid proof now s hs (by omega) (hokiff.mpr hc)]
  · intro hge
    rw [popComplete_forced v vid proof now s hs (by omega)]

/-- Witness for the amended C1 at a concrete captcha session with a
wrong string proof on the first attempt: the hypotheses hold there and
the first wrong completion reports pending. -/
theorem c1_pop_attempt_accounting_witness :
    (capVerifier.method = "captcha" ∧ dlookup capVerifier.sessions "vid1" = some capSession ∧
      capSession.max_attempts = 3) ∧
    (popComplete capVerifier "vid1" (PyVal.pstr "9") 1).2.status = "pending" :=
  ⟨⟨rfl, rfl, rfl⟩,
    (c1_pop_attempt_accounting capVerifier "vid1" (PyVal.pstr "9") 1 capSession
      rfl rfl rfl).2.1 (by unfold wrongProof; decide) rfl⟩

theorem proofOk_captcha_false (proof : PyVal) (answer : String)
    (hw : proof ≠ PyVal.pstr answer) : proofOk "captcha" proof answer = false := by
  cases hb : proofOk "captcha" proof answer
  · rfl
  · exact absurd ((proofOk_captcha_iff proof answer).mp hb) hw

/-- Shared helper: on a known id, every completion stores the session
with attempts incremented by one, whatever branch is taken. -/
theorem popComplete_attempts_increment (v : PopVerifier) (vid : String) (proof : PyVal)
    (now : ℚ) (s : PopSession) (hs : dlookup v.sessions vid = some s) :
    ∀ s2, dlookup (popComplete v vid proof now).1.sessions vid = some s2 →
      s2.attempts = s.attempts + 1 := by
  intro s2 hs2
  by_cases hforce : s.max_attempts < s.attempts + 1
  · rw [popComplete_forced v vid proof now s hs hforce] at hs2
    simp only [dlookup_dinsert_self] at hs2
    cases hs2
    rfl
  · by_cases hok : proofOk v.method proof s.challenge.answer = true
    · rw [popComplete_success v vid proof now s hs (by omega) hok] at hs2
      simp only [dlookup_dinsert_self] at hs2
      cases hs2
      rfl
    · have hok' : proofOk v.method proof s.challenge.answer = false := by
        cases hb : proofOk v.method proof s.challenge.answer
        · rfl
        · exact absurd hb hok
      by_cases hfin : s.max_attempts ≤ s.attempts + 1
      · rw [popComplete_miss_final v vid proof now s hs (by omega) hok' hfin] at hs2
        simp only [dlookup_dinsert_self] at hs2
        cases hs2
        rfl
      · rw [popComplete_miss_retry v vid proof now s hs hok' (by omega)] at hs2
        simp only [dlookup_dinsert_self] at hs2
        cases hs2
        rfl

/-- C10: on a known captcha id, a proof that is not a string, or any
string differing from the stored answer, is handled without raising
(the function is total): the attempt is counted (attempts is
incremented in the stored session) and the reported status is pending
while the incremented count stays below max_attempts and failed as
soon as it reaches max_attempts. -/
theorem c10_wrong_proof_counted (v : PopVerifier) (vid : String) (proof : PyVal)
    (now : ℚ) (s : PopSession) (hm : v.method = "captcha")
    (hs : dlookup v.sessions vid = some s) (hw : wrongProof proof s) :
    (popComplete v vid proof now).2.status =
      (if s.attempts + 1 < s.max_attempts then "pending" else "failed") ∧
    (∀ s2, dlookup (popComplete v vid proof now).1.sessions vid = some s2 →
      s2.attempts = s.attempts + 1) := by
  have hok' : proofOk v.method proof s.challenge.answer = false := by
    rw [hm]
    exact proofOk_captcha_false proof s.challenge.answer hw
  refine ⟨?_, popComplete_attempts_increment v vid proof now s hs⟩
  by_cases hlt : s.attempts + 1 < s.max_attempts
  · rw [popComplete_miss_retry v vid proof now s hs hok' hlt, if_pos hlt]
  · rw [if_neg hlt]
    by_cases hforce : s.max_attempts < s.attempts + 1
    · rw [popComplete_forced v vid proof now s hs hforce]
    · rw [popComplete_miss_final v vid proof now s hs (by omega) hok' (by omega)]

/-- Witness for C10 at a concrete captcha session with a non-string
proof (a Python int) on the first attempt: the hypotheses hold and the
reported status matches the branch formula. -/
theorem c10_wrong_proof_counted_witness :
    (capVerifier.method = "captcha" ∧ dlookup capVerifier.sessions "vid1" = some capSession ∧
      wrongProof (PyVal.pint 5) capSession) ∧
    (popComplete capVerifier "vid1" (PyVal.pint 5) 1).2.status =
      (if capSession.attempts + 1 < capSession.max_attempts then "pending" else "failed") :=
  ⟨⟨rfl, rfl, by unfold wrongProof; decide⟩,
    (c10_wrong_proof_counted capVerifier "vid1" (PyVal.pint 5) 1 capSession
      rfl rfl (by unfold wrongProof; decide)).1⟩

/-- Manager record and manager state used by the C5 counterexample. -/
def c5record : ManagerRecord :=
  { verification_type := "pop_captcha", address := "0xaddr", status := "pending",
    started_at := 0, verified_at := none, proof_hash := none, expires_at := none }

def c5manager : VerificationManager :=
  { verifiers := [("pop_captcha", capVerifier)], records := [("vid1", c5record)] }

/-- C5 is false at the manager level: completing with the correct
proof drives the stored record to verified, and then completing the
same id again with a wrong proof makes the mirrored record status
pending again, a verified to pending transition. -/
theorem c5_counterexample :
    ((dlookup (mgrComplete c5manager "vid1" (PyVal.pstr "5") 1).1.records "vid1").map
      ManagerRecord.status) = some "verified" ∧
    ((dlookup (mgrComplete (mgrComplete c5manager "vid1" (PyVal.pstr "5") 1).1 "vid1"
      (PyVal.pstr "9") 2).1.records "vid1").map ManagerRecord.status) = some "pending" ∧
    (("verified" : String) ≠ "pending") :=
  ⟨rfl, rfl, by simp⟩

/-- C5 amended: the verifier-level session status is monotone in the
claimed sense; a session that is verified is never stored back as
pending by a completion (checking never writes at all).  The
manager-level record mirror, by contrast, does regress from verified
to pending, as the counterexample shows. -/
theorem c5_session_status_monotone (v : PopVerifier) (vid : String) (proof : PyVal)
    (now : ℚ) (s : PopSession) (hs : dlookup v.sessions vid = some s)
    (hv : s.status = "verified") :
    ∀ s2, dlookup (popComplete v vid proof now).1.sessions vid = some s2 →
      s2.status ≠ "pending" := by
  intro s2 hs2
  by_cases hforce : s.max_attempts < s.attempts + 1
  · rw [popComplete_forced v vid proof now s hs hforce] at hs2
    simp only [dlookup_dinsert_self] at hs2
    cases hs2
    simp
  · by_cases hok : proofOk v.method proof s.challenge.answer = true
    · rw [popComplete_success v vid proof now s hs (by omega) hok] at hs2
      simp only [dlookup_dinsert_self] at hs2
      cases hs2
      simp
    · have hok' : proofOk v.method proof s.challenge.answer = false := by
        cases hb : proofOk v.method proof s.challenge.answer
        · rfl
        · exact absurd hb hok
      by_cases hfin : s.max_attempts ≤ s.attempts + 1
      · rw [popComplete_miss_final v vid proof now s hs (by omega) hok' hfin] at hs2
        simp only [dlookup_dinsert_self] at hs2
        cases hs2
        simp
      · rw [popComplete_miss_retry v vid proof now s hs hok' (by omega)] at hs2
        simp only [dlookup_dinsert_self] at hs2
        cases hs2
        simp [hv]

/-- Session and verifier for the C5 witness: already verified, one
attempt used. -/
def c5sessionVerified : PopSession :=
  { capSession with status := "verified", attempts := 1, verified_at := some 1 }

def c5verifierVerified : PopVerifier :=
  { method := "captcha", sessions := [("vid1", c5sessionVerified)] }

/-- Witness for the amended C5: a wrong completion on a verified
session leaves the stored session status not pending (it stays
verified). -/
theorem c5_session_status_monotone_witness :
    (dlookup c5verifierVerified.sessions "vid1" = some c5sessionVerified ∧
      c5sessionVerified.status = "verified") ∧
    ({ c5sessionVerified with attempts := 2 } : PopSession).status ≠ "pending" :=
  ⟨⟨rfl, rfl⟩,
    c5_session_status_monotone c5verifierVerified "vid1" (PyVal.pstr "9") 2
      c5sessionVerified rfl rfl ({ c5sessionVerified with attempts := 2 }) rfl⟩

/-- C7: for an id the manager has no record of, both
check_verification_status and complete_verification return a
structured not_found result (no exception exists: both functions are
total) and the manager state, in particular its records dict, is left
entirely unchanged. -/
theorem c7_unknown_id_not_found (m : VerificationManager) (vid : String) (proof : PyVal)
    (now : ℚ) (h : dlookup m.records vid = none) :
    (mgrCheck m vid).1 = m ∧
    (mgrCheck m vid).2.status = "not_found" ∧
    (mgrCheck m vid).2.error = some "Verification ID not found" ∧
    (mgrComplete m vid proof now).1 = m ∧
    (mgrComplete m vid proof now).2.status = "not_found" ∧
    (mgrComplete m vid proof now).2.error = some "Verification ID not found" := by
  refine ⟨?_, ?_, ?_, ?_, ?_, ?_⟩ <;> simp [mgrCheck, mgrComplete, h]

/-- Witness for C7: the empty manager and the id nonexistent. -/
theorem c7_unknown_id_not_found_witness :
    dlookup (VerificationManager.mk [] []).records "nonexistent" = none ∧
    ((mgrCheck (VerificationManager.mk [] []) "nonexistent").1 = VerificationManager.mk [] [] ∧
      (mgrCheck (VerificationManager.mk [] []) "nonexistent").2.status = "not_found" ∧
      (mgrCheck (VerificationManager.mk [] []) "nonexistent").2.error = some "Verification ID not found" ∧
      (mgrComplete (VerificationManager.mk [] []) "nonexistent" PyVal.pnone 0).1 = VerificationManager.mk [] [] ∧
      (mgrComplete (VerificationManager.mk [] []) "nonexistent" PyVal.pnone 0).2.status = "not_found" ∧
      (mgrComplete (VerificationManager.mk [] []) "nonexistent" PyVal.pnone 0).2.error = some "Verification ID not found") :=
  ⟨rfl, c7_unknown_id_not_found (VerificationManager.mk [] []) "nonexistent" PyVal.pnone 0 rfl⟩

/-- Record with an expiry time in the past of every positive check
instant, used by the C8 counterexample. -/
def c8record : ManagerRecord :=
  { verification_type := "pop_captcha", address := "0xaddr", status := "pending",
    started_at := 0, verified_at := none, proof_hash := none, expires_at := some 0 }

def c8manager : VerificationManager :=
  { verifiers := [("pop_captcha", capVerifier)], records := [("vid1", c8record)] }

/-- C8 is false on the code: the manager has no expiration handling at
all.  check_verification_status consults no clock (the embedded
function takes no time argument because the source reads none), so for
a record whose expires_at = 0 lies strictly before a check at any
positive time it reports pending, not expired, and persists pending
back into the record. -/
theorem c8_counterexample :
    c8record.expires_at = some 0 ∧ (0:ℚ) < 1 ∧
    (mgrCheck c8manager "vid1").2.status = "pending" ∧
    ((dlookup (mgrCheck c8manager "vid1").1.records "vid1").map ManagerRecord.status) =
      some "pending" ∧
    (("pending" : String) ≠ "expired") :=
  ⟨rfl, by norm_num, rfl, rfl, by simp⟩

/-- C8 amended: the manager performs no lazy expiration.  Checking a
known id whose type has a registered verifier with a session simply
mirrors the stored session status into the record and the result,
independently of the clock and of any expires_at value, which is left
untouched; in particular expired is never produced from a pending
session. -/
theorem c8_check_no_expiration (m : VerificationManager) (vid : String)
    (r : ManagerRecord) (pv : PopVerifier) (s : PopSession)
    (hr : dlookup m.records vid = some r)
    (hv : dlookup m.verifiers r.verification_type = some pv)
    (hs : dlookup pv.sessions vid = some s) :
    (mgrCheck m vid).2.status = s.status ∧
    ((dlookup (mgrCheck m vid).1.records vid).map ManagerRecord.status) = some s.status ∧
    ((dlookup (mgrCheck m vid).1.records vid).map ManagerRecord.expires_at) =
      some r.expires_at := by
  refine ⟨?_, ?_, ?_⟩ <;>
    simp [mgrCheck, hr, hv, popCheck, hs, dlookup_dinsert_self]

/-- Witness for the amended C8 at the expired-in-the-past record of the
counterexample manager: the reported and persisted status is the
pending session status and expires_at is untouched. -/
theorem c8_check_no_expiration_witness :
    (dlookup c8manager.records "vid1" = some c8record ∧
      dlookup c8manager.verifiers c8record.verification_type = some capVerifier ∧
      dlookup capVerifier.sessions "vid1" = some capSession) ∧
    ((mgrCheck c8manager "vid1").2.status = capSession.status ∧
      ((dlookup (mgrCheck c8manager "vid1").1.records "vid1").map ManagerRecord.status) =
        some capSession.status ∧
      ((dlookup (mgrCheck c8manager "vid1").1.records "vid1").map ManagerRecord.expires_at) =
        some c8record.expires_at) :=
  ⟨⟨rfl, rfl, rfl⟩,
    c8_check_no_expiration c8manager "vid1" c8record capVerifier capSession rfl rfl rfl⟩

/-- Two records for one address, the second started later, used by the
C9 counterexample. -/
def c9rec1 : ManagerRecord :=
  { verification_type := "pop_captcha", address := "0xaddr", status := "pending",
    started_at := 1, verified_at := none, proof_hash := none, expires_at := none }

def c9rec2 : ManagerRecord := { c9rec1 with started_at := 2 }

def c9manager : VerificationManager :=
  { verifiers := [], records := [("vid1", c9rec1), ("vid2", c9rec2)] }

/-- C9 is false at its ordering clause: the history walks the records
dict in insertion order, so the record started earlier comes first and
the list is oldest first, not newest first. -/
theorem c9_counterexample :
    getVerificationHistory c9manager "0xaddr" =
      [histEntry "vid1" c9rec1, histEntry "vid2" c9rec2] ∧
    c9rec1.started_at < c9rec2.started_at ∧
    histEntry "vid1" c9rec1 ≠ histEntry "vid2" c9rec2 :=
  ⟨rfl, by norm_num [c9rec1, c9rec2], by simp [histEntry, c9rec1, c9rec2]⟩

theorem historyLoop_eq_filter_map (address : String) (l : List (String × ManagerRecord)) :
    historyLoop address l =
      (l.filter (fun p => p.2.address == address)).map (fun p => histEntry p.1 p.2) := by
  induction l with
  | nil => rfl
  | cons p rest ih =>
      obtain ⟨vid, r⟩ := p
      by_cases h : r.address = address
      · simp [historyLoop, h, ih]
      · simp [historyLoop, h, ih]

/-- C9 amended: get_verification_history returns exactly the
projections of the stored records whose address equals the argument,
in the insertion order of the records dict (oldest first, since the
manager only appends fresh ids); it is a pure read and modifies no
state. -/
theorem c9_history_exactly_matching (m : VerificationManager) (address : String) :
    getVerificationHistory m address =
      (m.records.filter (fun p => p.2.address == address)).map (fun p => histEntry p.1 p.2) :=
  historyLoop_eq_filter_map address m.records

end SybilShield
